import Mathlib

/-
Verification development for the real-time price-streaming client of the
Investment Dashboard repository (src/contexts/WebSocketContext.tsx).

The client is shallowly embedded as pure Lean functions over an explicit
state record: React refs and useState cells become fields of ClientState,
event handlers become step functions returning the new state together with
the wire messages or side-effect actions they emit, and the browser
crypto primitives (SHA-256, base64, UTF-8 encoding) are implemented as
executable Lean functions on lists of byte values (Nat below 256).
-/

namespace WSClient

/- ReadyState of the browser WebSocket transport. -/
inductive ReadyState where
  | connecting
  | opened
  | closing
  | closed
deriving DecidableEq, Repr

/- Client-to-server wire messages (JSON objects in the source). -/
inductive ClientMsg where
  | subscribeMsg (symbols : List String)
  | unsubscribeMsg (symbols : List String)
  | requestChallenge (api_key : String)
  | challengeResponse (challenge_id : String) (signature : String) (api_key : String)
deriving DecidableEq, Repr

/- Server-to-client wire messages, discriminated by their type field. -/
inductive ServerMsg where
  | authRequired
  | challenge (challenge : String) (challenge_id : String)
  | authenticated (session_token : String)
  | authError (message : String)
  | priceUpdate (symbol : String) (price : Int)
  | errorMsg (message : String)
deriving DecidableEq, Repr

/- Non-message side effects of the connection manager. -/
inductive Action where
  | createTransport
  | closeTransport
  | send (m : ClientMsg)
  | scheduleReconnect (delayMs : Nat)
deriving DecidableEq, Repr

/-! SHA-256, translated from the standard algorithm that the source invokes
through crypto.subtle.digest with identifier SHA-256.  Words are Nat values
kept below 2 to the 32 by explicit reduction. -/

def w32 (x : Nat) : Nat := x % 4294967296

def rotr (n x : Nat) : Nat := Nat.lor (x / 2 ^ n) (x * 2 ^ (32 - n) % 4294967296)

def shr (n x : Nat) : Nat := x / 2 ^ n

def bnot32 (x : Nat) : Nat := 4294967295 - x

def ch (e f g : Nat) : Nat := Nat.xor (Nat.land e f) (Nat.land (bnot32 e) g)

def maj (a b c : Nat) : Nat :=
  Nat.xor (Nat.xor (Nat.land a b) (Nat.land a c)) (Nat.land b c)

def bsig0 (x : Nat) : Nat := Nat.xor (Nat.xor (rotr 2 x) (rotr 13 x)) (rotr 22 x)

def bsig1 (x : Nat) : Nat := Nat.xor (Nat.xor (rotr 6 x) (rotr 11 x)) (rotr 25 x)

def ssig0 (x : Nat) : Nat := Nat.xor (Nat.xor (rotr 7 x) (rotr 18 x)) (shr 3 x)

def ssig1 (x : Nat) : Nat := Nat.xor (Nat.xor (rotr 17 x) (rotr 19 x)) (shr 10 x)

def sha256K : List Nat :=
  [1116352408, 1899447441, 3049323471, 3921009573, 961987163, 1508970993,
   2453635748, 2870763221, 3624381080, 310598401, 607225278, 1426881987,
   1925078388, 2162078206, 2614888103, 3248222580, 3835390401, 4022224774,
   264347078, 604807628, 770255983, 1249150122, 1555081692, 1996064986,
   2554220882, 2821834349, 2952996808, 3210313671, 3336571891, 3584528711,
   113926993, 338241895, 666307205, 773529912, 1294757372, 1396182291,
   1695183700, 1986661051, 2177026350, 2456956037, 2730485921, 2820302411,
   3259730800, 3345764771, 3516065817, 3600352804, 4094571909, 275423344,
   430227734, 506948616, 659060556, 883997877, 958139571, 1322822218,
   1537002063, 1747873779, 1955562222, 2024104815, 2227730452, 2361852424,
   2428436474, 2756734187, 3204031479, 3329325298]

structure Hstate where
  a : Nat
  b : Nat
  c : Nat
  d : Nat
  e : Nat
  f : Nat
  g : Nat
  h : Nat
deriving DecidableEq, Repr

def initialHstate : Hstate :=
  ⟨1779033703, 3144134277, 1013904242, 2773480762,
   1359893119, 2600822924, 528734635, 1541459225⟩

/- Big-endian 32-bit words from a list of bytes. -/
def toWords : List Nat → List Nat
  | b0 :: b1 :: b2 :: b3 :: rest => (((b0 * 256 + b1) * 256 + b2) * 256 + b3) :: toWords rest
  | _ => []

/- Extend a 16-word message schedule by the given number of words. -/
def extendW (w : List Nat) : Nat → List Nat
  | 0 => w
  | n + 1 =>
    let i := w.length
    extendW (w ++ [w32 (ssig1 (w.getD (i - 2) 0) + w.getD (i - 7) 0 +
                        ssig0 (w.getD (i - 15) 0) + w.getD (i - 16) 0)]) n

def compressStep (st : Hstate) (ki : Nat) (wi : Nat) : Hstate :=
  let t1 := w32 (st.h + bsig1 st.e + ch st.e st.f st.g + ki + wi)
  let t2 := w32 (bsig0 st.a + maj st.a st.b st.c)
  ⟨w32 (t1 + t2), st.a, st.b, st.c, w32 (st.d + t1), st.e, st.f, st.g⟩

def compressBlock (hs : Hstate) (block : List Nat) : Hstate :=
  let w := extendW (toWords block) 48
  let st := (sha256K.zip w).foldl (fun st p => compressStep st p.1 p.2) hs
  ⟨w32 (hs.a + st.a), w32 (hs.b + st.b), w32 (hs.c + st.c), w32 (hs.d + st.d),
   w32 (hs.e + st.e), w32 (hs.f + st.f), w32 (hs.g + st.g), w32 (hs.h + st.h)⟩

def lengthBytes (bitLen : Nat) : List Nat :=
  [bitLen / 2 ^ 56 % 256, bitLen / 2 ^ 48 % 256, bitLen / 2 ^ 40 % 256, bitLen / 2 ^ 32 % 256,
   bitLen / 2 ^ 24 % 256, bitLen / 2 ^ 16 % 256, bitLen / 2 ^ 8 % 256, bitLen % 256]

def padMessage (m : List Nat) : List Nat :=
  m ++ [128] ++ List.replicate ((119 - m.length % 64) % 64) 0 ++ lengthBytes (8 * m.length)

def chunks64Fuel : Nat → List Nat → List (List Nat)
  | 0, _ => []
  | _, [] => []
  | n + 1, l => l.take 64 :: chunks64Fuel n (l.drop 64)

def chunks64 (l : List Nat) : List (List Nat) := chunks64Fuel l.length l

def wordBytes (x : Nat) : List Nat :=
  [x / 16777216 % 256, x / 65536 % 256, x / 256 % 256, x % 256]

/- SHA-256 digest of a byte list, as 32 bytes. -/
def sha256Digest (msg : List Nat) : List Nat :=
  let fin := (chunks64 (padMessage msg)).foldl compressBlock initialHstate
  wordBytes fin.a ++ wordBytes fin.b ++ wordBytes fin.c ++ wordBytes fin.d ++
  wordBytes fin.e ++ wordBytes fin.f ++ wordBytes fin.g ++ wordBytes fin.h

/-! Base64 of a byte list, as produced by btoa over the byte string built by
String.fromCharCode in the source helper. -/

def base64Table : List Char :=
  "ABCDEFGHIJKLMNOPQRSTUVWXYZabcdefghijklmnopqrstuvwxyz0123456789+/".data

def b64c (n : Nat) : String := String.mk [base64Table.getD n 'A']

def base64Encode : List Nat → String
  | [] => ""
  | [b0] =>
    let n := b0 * 65536
    b64c (n / 262144) ++ b64c (n / 4096 % 64) ++ "=="
  | [b0, b1] =>
    let n := (b0 * 256 + b1) * 256
    b64c (n / 262144) ++ b64c (n / 4096 % 64) ++ b64c (n / 64 % 64) ++ "="
  | b0 :: b1 :: b2 :: rest =>
    let n := (b0 * 256 + b1) * 256 + b2
    b64c (n / 262144) ++ b64c (n / 4096 % 64) ++ b64c (n / 64 % 64) ++ b64c (n % 64) ++
    base64Encode rest

/-! UTF-8 encoding of a string, as performed by TextEncoder in the source. -/

def utf8EncodeChar (c : Char) : List Nat :=
  let n := c.toNat
  if n < 128 then [n]
  else if n < 2048 then [192 + n / 64, 128 + n % 64]
  else if n < 65536 then [224 + n / 4096, 128 + n / 64 % 64, 128 + n % 64]
  else [240 + n / 262144, 128 + n / 4096 % 64, 128 + n / 64 % 64, 128 + n % 64]

def utf8Encode (s : String) : List Nat := (s.data.map utf8EncodeChar).flatten

/- The sha256 helper of the source: SHA-256 of the UTF-8 bytes of the
message, base64-encoded. -/
def sha256 (message : String) : String := base64Encode (sha256Digest (utf8Encode message))

/- Known test vector: the base64-encoded SHA-256 digest of the ASCII string abc. -/
example : sha256 "abc" = "ungWv48Bz+pBQUDeXa4iI7ADYaOWF3qctBD/YfIAFa0=" := by decide

/-! The client state.  React useState cells and useRef refs of the
WebSocketProvider become fields; configuration props become fields as well. -/

structure ClientState where
  /- configuration props -/
  url : String
  apiKey : Option String
  enabled : Bool
  reconnectInterval : Nat
  /- useState cells -/
  isConnected : Bool
  error : Option String
  isAuthenticated : Bool
  sessionToken : Option String
  prices : List (String × Int)
  /- refs -/
  ws : Option ReadyState
  subscribedSymbols : List String
  authenticationInProgress : Bool
  connectionInProgress : Bool
deriving DecidableEq, Repr

/- Insertion into the subscription set: JS Set.add keeps insertion order and
ignores an element already present. -/
def addSymbol (set : List String) (sym : String) : List String :=
  if set.contains sym then set else set ++ [sym]

/- Deletion from the subscription set: JS Set.delete removes the element and
keeps the order of the rest. -/
def removeSymbol (set : List String) (sym : String) : List String :=
  set.filter (fun y => y ≠ sym)

/- subscribe, from the source: early return on an empty argument, filter to
the symbols not already in the set, early return when none are new, add the
new ones, and send a subscribe message for exactly the new ones when the
transport is open and the client is authenticated. -/
def subscribe (s : ClientState) (symbols : List String) : ClientState × List ClientMsg :=
  if symbols.length = 0 then (s, [])
  else
    let newSymbols := symbols.filter (fun sym => !(s.subscribedSymbols.contains sym))
    if newSymbols.length = 0 then (s, [])
    else
      let s' := { s with subscribedSymbols := newSymbols.foldl addSymbol s.subscribedSymbols }
      if s.ws = some ReadyState.opened ∧ s.isAuthenticated = true then
        (s', [ClientMsg.subscribeMsg newSymbols])
      else (s', [])

/- unsubscribe, from the source: filter to the symbols actually subscribed,
early return when none are, remove them, and send an unsubscribe message for
exactly those when the transport is open and the client is authenticated. -/
def unsubscribe (s : ClientState) (symbols : List String) : ClientState × List ClientMsg :=
  if symbols.length = 0 then (s, [])
  else
    let subscribedToRemove := symbols.filter (fun sym => s.subscribedSymbols.contains sym)
    if subscribedToRemove.length = 0 then (s, [])
    else
      let s' := { s with
        subscribedSymbols := subscribedToRemove.foldl removeSymbol s.subscribedSymbols }
      if s.ws = some ReadyState.opened ∧ s.isAuthenticated = true then
        (s', [ClientMsg.unsubscribeMsg subscribedToRemove])
      else (s', [])

/- The guard of connect: a transport exists and is CONNECTING or OPEN. -/
def wsLive (ws : Option ReadyState) : Bool :=
  match ws with
  | some ReadyState.connecting => true
  | some ReadyState.opened => true
  | _ => false

/- connect, from the source: no-op when disabled or the URL is empty, no-op
when the connectionInProgress guard is set or a live transport exists;
otherwise set the guard, close any stale transport, and create a new one
(a fresh WebSocket starts in the CONNECTING state). -/
def connect (s : ClientState) : ClientState × List Action :=
  if s.enabled = false ∨ s.url = "" then (s, [])
  else if s.connectionInProgress = true ∨ wsLive s.ws = true then (s, [])
  else
    let closeActs := if s.ws.isSome then [Action.closeTransport] else []
    ({ s with connectionInProgress := true, ws := some ReadyState.connecting },
     closeActs ++ [Action.createTransport])

/- The tail of the onopen handler, after the authenticate call returned:
on success, resend the full current subscription set (when non-empty) as one
subscribe message; on failure, close the transport. -/
def onOpenAfterAuth (s : ClientState) (authSuccess : Bool) : List Action :=
  if authSuccess = true then
    if s.subscribedSymbols.length > 0 then
      [Action.send (ClientMsg.subscribeMsg s.subscribedSymbols)]
    else []
  else [Action.closeTransport]

/- The onclose handler, from the source: clear the connected and
authenticated flags, discard the session token, reset both guards, drop the
transport handle, and schedule one reconnect after reconnectInterval unless
the close code is 1000 or the client is disabled. -/
def onClose (s : ClientState) (code : Nat) : ClientState × List Action :=
  let s' := { s with
    isConnected := false, isAuthenticated := false, sessionToken := none,
    authenticationInProgress := false, connectionInProgress := false,
    ws := (none : Option ReadyState) }
  if s.enabled = true ∧ code ≠ 1000 then
    (s', [Action.scheduleReconnect s.reconnectInterval])
  else (s', [])

/- Entry of the authenticate function: with no API key, authentication is
trivially satisfied at once and nothing is sent; with a key, a second call
while one handshake is pending resolves false at once; otherwise the guard
is set and the handshake becomes pending (result of the middle component:
some b means the call resolved synchronously with b, none means pending). -/
def authenticateStart (s : ClientState) : ClientState × Option Bool × List ClientMsg :=
  match s.apiKey with
  | none => ({ s with isAuthenticated := true }, some true, [])
  | some _ =>
    if s.authenticationInProgress = true then (s, some false, [])
    else ({ s with authenticationInProgress := true }, none, [])

/-! The pending handshake: the message listener plus the 10 second timer
registered by authenticate.  Events are inbound messages, a JSON parse
failure inside the listener, and the firing of the timer. -/

structure AuthMachine where
  client : ClientState
  resolved : Option Bool
  listenerActive : Bool
  timeoutActive : Bool
deriving DecidableEq, Repr

inductive AuthEvent where
  | msg (m : ServerMsg)
  | badJson
  | timeoutFires
deriving DecidableEq, Repr

/- A JS promise resolves only once; later resolve calls are ignored. -/
def resolveAuth (a : AuthMachine) (b : Bool) : AuthMachine :=
  match a.resolved with
  | some _ => a
  | none => { a with resolved := some b }

/- One step of the handshake listener and timer, from the source message
handler: auth_required requests a challenge; challenge is signed with
sha256 over challenge, a colon and the key and answered with
challenge_response; authenticated and auth_error are terminal and clear the
timer, the listener and the guard; a parse failure is terminal the same
way; the timer firing resolves the handshake false, clears the guard and
surfaces an error, leaving the listener in place. -/
def authStep (apiKey : String) (a : AuthMachine) : AuthEvent → AuthMachine × List ClientMsg
  | AuthEvent.timeoutFires =>
    if a.timeoutActive = true then
      let c := { a.client with
        error := some "Authentication timeout", authenticationInProgress := false }
      (resolveAuth { a with client := c, timeoutActive := false } false, [])
    else (a, [])
  | AuthEvent.badJson =>
    if a.listenerActive = true then
      let c := { a.client with
        error := some "Authentication error", authenticationInProgress := false }
      (resolveAuth { a with client := c, timeoutActive := false, listenerActive := false } false,
       [])
    else (a, [])
  | AuthEvent.msg m =>
    if a.listenerActive = true then
      match m with
      | ServerMsg.authRequired => (a, [ClientMsg.requestChallenge apiKey])
      | ServerMsg.challenge c i =>
        (a, [ClientMsg.challengeResponse i (sha256 (c ++ ":" ++ apiKey)) apiKey])
      | ServerMsg.authenticated tok =>
        let c := { a.client with
          isAuthenticated := true, sessionToken := some tok, error := none,
          authenticationInProgress := false }
        (resolveAuth { a with client := c, timeoutActive := false, listenerActive := false } true,
         [])
      | ServerMsg.authError m =>
        let c := { a.client with
          error := some ("Authentication failed: " ++ m), isAuthenticated := false,
          authenticationInProgress := false }
        (resolveAuth { a with client := c, timeoutActive := false, listenerActive := false } false,
         [])
      | _ => (a, [])
    else (a, [])

/- Run a handshake over a list of events, collecting the sent messages. -/
def authRun (apiKey : String) (a : AuthMachine) : List AuthEvent → AuthMachine × List ClientMsg
  | [] => (a, [])
  | e :: rest =>
    let r1 := authStep apiKey a e
    let r2 := authRun apiKey r1.1 rest
    (r2.1, r1.2 ++ r2.2)

/- Events that end the pending handshake. -/
def isTerminalAuthEvent : AuthEvent → Bool
  | AuthEvent.msg (ServerMsg.authenticated _) => true
  | AuthEvent.msg (ServerMsg.authError _) => true
  | AuthEvent.badJson => true
  | AuthEvent.timeoutFires => true
  | _ => false

/-! The price cache. -/

def cacheExpiryMs : Nat := 24 * 60 * 60 * 1000

/- What reading and parsing the persisted snapshot can yield. -/
inductive CacheLoad where
  | missing
  | unparsable
  | parsed (data : List (String × Int)) (timestamp : Int)
deriving DecidableEq, Repr

/- The initial useState computation, from the source: adopt the stored data map
verbatim when its age is strictly below the expiry window, otherwise start
empty; a missing or unparsable snapshot also starts empty. -/
def loadCachedPrices (cached : CacheLoad) (now : Int) : List (String × Int) :=
  match cached with
  | CacheLoad.missing => []
  | CacheLoad.unparsable => []
  | CacheLoad.parsed data ts => if now - ts < (cacheExpiryMs : Int) then data else []

structure CacheSnapshot where
  data : List (String × Int)
  timestamp : Int
deriving DecidableEq, Repr

/- The persistence effect, from the source: whenever the price map changes
and is non-empty, write the snapshot of the current map and the current
time; none means no write happened. -/
def persistPrices (prices : List (String × Int)) (now : Int) : Option CacheSnapshot :=
  if prices.length > 0 then some { data := prices, timestamp := now } else none

/- The JS object spread update: an existing key is updated in place, a new
key is appended. -/
def applyPriceUpdate (prices : List (String × Int)) (symbol : String) (price : Int) :
    List (String × Int) :=
  if prices.any (fun p => p.1 = symbol) then
    prices.map (fun p => if p.1 = symbol then (symbol, price) else p)
  else prices ++ [(symbol, price)]

/- The onmessage handler for data messages, from the source:
authentication-phase types are skipped, price_update merges into the price
map, error surfaces the message. -/
def handleDataMessage (s : ClientState) (m : ServerMsg) : ClientState :=
  match m with
  | ServerMsg.authRequired => s
  | ServerMsg.challenge _ _ => s
  | ServerMsg.authenticated _ => s
  | ServerMsg.authError _ => s
  | ServerMsg.priceUpdate sym price => { s with prices := applyPriceUpdate s.prices sym price }
  | ServerMsg.errorMsg m => { s with error := some m }

/-! A registry-level trace semantics for the subscription set. -/

inductive RegOp where
  | sub (symbols : List String)
  | unsub (symbols : List String)
  | close (code : Nat)
deriving DecidableEq, Repr

def stepOp (s : ClientState) : RegOp → ClientState
  | RegOp.sub symbols => (subscribe s symbols).1
  | RegOp.unsub symbols => (unsubscribe s symbols).1
  | RegOp.close code => (onClose s code).1

def runOps (s : ClientState) (ops : List RegOp) : ClientState := ops.foldl stepOp s

/- The set-level effect of subscribe. -/
def registrySub (set : List String) (symbols : List String) : List String :=
  (symbols.filter (fun sym => !(set.contains sym))).foldl addSymbol set

/- The set-level effect of unsubscribe. -/
def registryUnsub (set : List String) (symbols : List String) : List String :=
  (symbols.filter (fun sym => set.contains sym)).foldl removeSymbol set

/- The pure registry semantics: a transport close leaves the set untouched. -/
def registryStep (set : List String) : RegOp → List String
  | RegOp.sub symbols => registrySub set symbols
  | RegOp.unsub symbols => registryUnsub set symbols
  | RegOp.close _ => set

/-! Concrete states used to instantiate theorems that carry hypotheses. -/

def testClient : ClientState :=
  { url := "wss://prices.example", apiKey := some "secret", enabled := true,
    reconnectInterval := 5000, isConnected := true, error := none,
    isAuthenticated := false, sessionToken := none, prices := [],
    ws := some ReadyState.opened, subscribedSymbols := [],
    authenticationInProgress := true, connectionInProgress := false }

def testAuth : AuthMachine :=
  { client := testClient, resolved := none, listenerActive := true, timeoutActive := true }

def testNoKeyClient : ClientState :=
  { url := "wss://prices.example", apiKey := none, enabled := true,
    reconnectInterval := 5000, isConnected := true, error := none,
    isAuthenticated := false, sessionToken := none, prices := [],
    ws := some ReadyState.opened, subscribedSymbols := [],
    authenticationInProgress := false, connectionInProgress := false }

def testFreshClient : ClientState :=
  { url := "wss://prices.example", apiKey := some "secret", enabled := true,
    reconnectInterval := 5000, isConnected := false, error := none,
    isAuthenticated := false, sessionToken := none, prices := [],
    ws := none, subscribedSymbols := [], authenticationInProgress := false,
    connectionInProgress := false }

def testOfflineClient : ClientState :=
  { url := "wss://prices.example", apiKey := some "secret", enabled := true,
    reconnectInterval := 5000, isConnected := false, error := none,
    isAuthenticated := false, sessionToken := none, prices := [("AAPL", 100)],
    ws := none, subscribedSymbols := ["AAPL", "MSFT"],
    authenticationInProgress := false, connectionInProgress := false }

/-! Helper lemmas on the subscription set. -/

theorem mem_addSymbol_self (set : List String) (sym : String) : sym ∈ addSymbol set sym := by
  unfold addSymbol
  split
  · rename_i h
    exact List.mem_of_elem_eq_true h
  · exact List.mem_append_right _ (List.mem_singleton.mpr rfl)

theorem mem_addSymbol_of_mem (set : List String) (sym x : String) (hx : x ∈ set) :
    x ∈ addSymbol set sym := by
  unfold addSymbol
  split
  · exact hx
  · exact List.mem_append_left _ hx

theorem mem_foldl_addSymbol_of_mem (l : List String) (set : List String) (x : String)
    (hx : x ∈ set) : x ∈ l.foldl addSymbol set := by
  induction l generalizing set with
  | nil => exact hx
  | cons a rest ih => exact ih (addSymbol set a) (mem_addSymbol_of_mem set a x hx)

theorem mem_foldl_addSymbol_of_mem_list (l : List String) (set : List String) (x : String)
    (hx : x ∈ l) : x ∈ l.foldl addSymbol set := by
  induction l generalizing set with
  | nil => cases hx
  | cons a rest ih =>
    cases hx with
    | head => exact mem_foldl_addSymbol_of_mem rest (addSymbol set x) x (mem_addSymbol_self set x)
    | tail _ h => exact ih (addSymbol set a) h

theorem not_mem_removeSymbol_self (set : List String) (sym : String) :
    sym ∉ removeSymbol set sym := by
  unfold removeSymbol
  intro h
  have := List.of_mem_filter h
  simp at this

theorem not_mem_removeSymbol_of_not_mem (set : List String) (sym x : String) (hx : x ∉ set) :
    x ∉ removeSymbol set sym := by
  unfold removeSymbol
  intro h
  exact hx (List.mem_of_mem_filter h)

theorem not_mem_foldl_removeSymbol_of_not_mem (l : List String) (set : List String) (x : String)
    (hx : x ∉ set) : x ∉ l.foldl removeSymbol set := by
  induction l generalizing set with
  | nil => exact hx
  | cons a rest ih => exact ih (removeSymbol set a) (not_mem_removeSymbol_of_not_mem set a x hx)

theorem not_mem_foldl_removeSymbol_of_mem_list (l : List String) (set : List String) (x : String)
    (hx : x ∈ l) : x ∉ l.foldl removeSymbol set := by
  induction l generalizing set with
  | nil => cases hx
  | cons a rest ih =>
    cases hx with
    | head =>
      exact not_mem_foldl_removeSymbol_of_not_mem rest (removeSymbol set x) x
        (not_mem_removeSymbol_self set x)
    | tail _ h => exact ih (removeSymbol set a) h

theorem contains_iff_mem (l : List String) (x : String) : l.contains x = true ↔ x ∈ l := by
  constructor
  · exact List.mem_of_elem_eq_true
  · exact List.elem_eq_true_of_mem

theorem mem_of_mem_foldl_removeSymbol (l : List String) (set : List String) (x : String)
    (hx : x ∈ l.foldl removeSymbol set) : x ∈ set := by
  induction l generalizing set with
  | nil => exact hx
  | cons a rest ih => exact List.mem_of_mem_filter (ih (removeSymbol set a) hx)

/-! Projection lemmas: the subscription set after each operation equals the
pure registry semantics of that operation. -/

theorem subscribe_fst_subscribedSymbols (s : ClientState) (S : List String) :
    (subscribe s S).1.subscribedSymbols = registrySub s.subscribedSymbols S := by
  unfold subscribe registrySub
  by_cases h0 : S.length = 0
  · have hS : S = [] := List.length_eq_zero.mp h0
    subst hS
    simp
  · simp only [if_neg h0]
    by_cases h1 : (S.filter (fun sym => !(s.subscribedSymbols.contains sym))).length = 0
    · have hf : S.filter (fun sym => !(s.subscribedSymbols.contains sym)) = [] :=
        List.length_eq_zero.mp h1
      rw [if_pos h1, hf]
      rfl
    · simp only [if_neg h1]
      split <;> rfl

theorem unsubscribe_fst_subscribedSymbols (s : ClientState) (S : List String) :
    (unsubscribe s S).1.subscribedSymbols = registryUnsub s.subscribedSymbols S := by
  unfold unsubscribe registryUnsub
  by_cases h0 : S.length = 0
  · have hS : S = [] := List.length_eq_zero.mp h0
    subst hS
    simp
  · simp only [if_neg h0]
    by_cases h1 : (S.filter (fun sym => s.subscribedSymbols.contains sym)).length = 0
    · have hf : S.filter (fun sym => s.subscribedSymbols.contains sym) = [] :=
        List.length_eq_zero.mp h1
      rw [if_pos h1, hf]
      rfl
    · simp only [if_neg h1]
      split <;> rfl

theorem onClose_fst (s : ClientState) (code : Nat) :
    (onClose s code).1 = { s with
      isConnected := false, isAuthenticated := false, sessionToken := none,
      authenticationInProgress := false, connectionInProgress := false,
      ws := (none : Option ReadyState) } := by
  unfold onClose
  split <;> rfl

theorem runOps_subscribedSymbols (L : List RegOp) (s : ClientState) :
    (runOps s L).subscribedSymbols = L.foldl registryStep s.subscribedSymbols := by
  induction L generalizing s with
  | nil => rfl
  | cons op rest ih =>
    have hstep : (stepOp s op).subscribedSymbols = registryStep s.subscribedSymbols op := by
      cases op with
      | sub S => exact subscribe_fst_subscribedSymbols s S
      | unsub S =>
        exact unsubscribe_fst_subscribedSymbols s S
      | close code =>
        show (onClose s code).1.subscribedSymbols = s.subscribedSymbols
        rw [onClose_fst]
    calc (runOps s (op :: rest)).subscribedSymbols
        = (runOps (stepOp s op) rest).subscribedSymbols := rfl
      _ = rest.foldl registryStep (stepOp s op).subscribedSymbols := ih _
      _ = rest.foldl registryStep (registryStep s.subscribedSymbols op) := by rw [hstep]
      _ = ((op :: rest).foldl registryStep s.subscribedSymbols) := rfl

/- The merged price map is never empty. -/
theorem applyPriceUpdate_length_pos (prices : List (String × Int)) (symbol : String)
    (price : Int) : 0 < (applyPriceUpdate prices symbol price).length := by
  unfold applyPriceUpdate
  split
  · rename_i h
    cases prices with
    | nil => simp at h
    | cons p rest => simp
  · simp

/-! Claim theorems. -/

/-- C4: for every configured credential k, upon receiving a challenge message
carrying challenge string c and identifier i, an active handshake listener
sends a challenge_response message whose signature equals the base64
encoding of the SHA-256 hash of the UTF-8 bytes of c, a colon and k,
together with challenge_id i and api_key k, and changes no state. -/
theorem c4_challenge_response (k : String) (a : AuthMachine) (c i : String)
    (h : a.listenerActive = true) :
    authStep k a (AuthEvent.msg (ServerMsg.challenge c i)) =
      (a, [ClientMsg.challengeResponse i
            (base64Encode (sha256Digest (utf8Encode (c ++ ":" ++ k)))) k]) := by
  simp only [authStep]
  rw [if_pos h]
  rfl

/-- C4 witness: the handshake listener at a concrete state answers the
challenge abc with identifier 1 by signing abc, a colon and the key. -/
theorem c4_challenge_response_witness :
    authStep "secret" testAuth (AuthEvent.msg (ServerMsg.challenge "abc" "1")) =
      (testAuth, [ClientMsg.challengeResponse "1"
            (base64Encode (sha256Digest (utf8Encode ("abc" ++ ":" ++ "secret")))) "secret"]) :=
  c4_challenge_response "secret" testAuth "abc" "1" rfl

/-- C5: with no credential configured, the authenticate entry point resolves
to success immediately, sets the authenticated flag, and sends nothing. -/
theorem c5_no_key_auth (s : ClientState) (h : s.apiKey = none) :
    authenticateStart s = ({ s with isAuthenticated := true }, some true, []) := by
  unfold authenticateStart
  rw [h]

/-- C5 witness: the concrete keyless client authenticates at once with no
handshake traffic. -/
theorem c5_no_key_auth_witness :
    authenticateStart testNoKeyClient =
      ({ testNoKeyClient with isAuthenticated := true }, some true, []) :=
  c5_no_key_auth testNoKeyClient rfl

/-- C7: on transport close the connected and authenticated flags are cleared
and the session token is discarded in every case, and exactly one reconnect
is scheduled after the configured interval precisely when the client is
enabled and the close code differs from 1000. -/
theorem c7_close_reconnect (s : ClientState) (code : Nat) :
    (onClose s code).1.isConnected = false ∧
    (onClose s code).1.isAuthenticated = false ∧
    (onClose s code).1.sessionToken = none ∧
    (onClose s code).2 = (if s.enabled = true ∧ code ≠ 1000
                          then [Action.scheduleReconnect s.reconnectInterval] else []) := by
  refine ⟨?_, ?_, ?_, ?_⟩ <;> unfold onClose <;> split <;> rfl

/-- C8: at construction the cache adopts the persisted snapshot verbatim
exactly when its age is strictly below the 24 hour expiry window, and starts
empty on an expired, missing or unparsable snapshot. -/
theorem c8_cache_expiry (data : List (String × Int)) (ts now : Int) :
    loadCachedPrices (CacheLoad.parsed data ts) now =
      (if now - ts < (cacheExpiryMs : Int) then data else []) ∧
    loadCachedPrices CacheLoad.missing now = [] ∧
    loadCachedPrices CacheLoad.unparsable now = [] ∧
    cacheExpiryMs = 86400000 := by
  exact ⟨rfl, rfl, rfl, rfl⟩

/-- C9: after every price update merged into the in-memory map, the
persistence effect writes a snapshot equal to the current price map together
with the time of saving. -/
theorem c9_persist_mirror (s : ClientState) (sym : String) (price : Int) (now : Int) :
    persistPrices (handleDataMessage s (ServerMsg.priceUpdate sym price)).prices now =
      some { data := (handleDataMessage s (ServerMsg.priceUpdate sym price)).prices,
             timestamp := now } := by
  unfold persistPrices
  rw [if_pos]
  show 0 < (handleDataMessage s (ServerMsg.priceUpdate sym price)).prices.length
  exact applyPriceUpdate_length_pos s.prices sym price

/-- C1: subscribe sends a subscribe message exactly when the subset of the
argument not already present in the subscription set is non-empty and the
transport is open and authenticated, the message carries exactly that
subset, and an immediate second call with the same list sends nothing, so
two consecutive calls with the same list produce exactly one subscribe
message for it. -/
theorem c1_subscribe_idempotent (s : ClientState) (S : List String) :
    (subscribe s S).2 =
      (if S.filter (fun sym => !(s.subscribedSymbols.contains sym)) ≠ [] ∧
          s.ws = some ReadyState.opened ∧ s.isAuthenticated = true
       then [ClientMsg.subscribeMsg (S.filter (fun sym => !(s.subscribedSymbols.contains sym)))]
       else []) ∧
    (subscribe (subscribe s S).1 S).2 = [] := by
  constructor
  · simp only [subscribe]
    by_cases h0 : S.length = 0
    · have hS : S = [] := List.length_eq_zero.mp h0
      subst hS
      simp
    · rw [if_neg h0]
      by_cases h1 : (S.filter (fun sym => !(s.subscribedSymbols.contains sym))).length = 0
      · have hf : S.filter (fun sym => !(s.subscribedSymbols.contains sym)) = [] :=
          List.length_eq_zero.mp h1
        rw [if_pos h1, hf]
        simp
      · have hne : S.filter (fun sym => !(s.subscribedSymbols.contains sym)) ≠ [] := by
          intro he
          exact h1 (by rw [he]; rfl)
        rw [if_neg h1]
        by_cases h2 : s.ws = some ReadyState.opened ∧ s.isAuthenticated = true
        · rw [if_pos h2, if_pos ⟨hne, h2⟩]
        · rw [if_neg h2, if_neg (fun hc => h2 hc.2)]
  · have hmem : ∀ x ∈ S, x ∈ (subscribe s S).1.subscribedSymbols := by
      intro x hx
      rw [subscribe_fst_subscribedSymbols]
      unfold registrySub
      by_cases hin : x ∈ s.subscribedSymbols
      · exact mem_foldl_addSymbol_of_mem _ _ _ hin
      · apply mem_foldl_addSymbol_of_mem_list
        apply List.mem_filter.mpr
        refine ⟨hx, ?_⟩
        simp only [Bool.not_eq_true']
        exact (Bool.not_eq_true _).mp (fun hc => hin ((contains_iff_mem _ _).mp hc))
    generalize hg : (subscribe s S).1 = s1 at hmem
    have h2 : S.filter (fun sym => !(s1.subscribedSymbols.contains sym)) = [] := by
      apply List.filter_eq_nil_iff.mpr
      intro x hx
      rw [(contains_iff_mem _ _).mpr (hmem x hx)]
      simp
    simp only [subscribe]
    by_cases h0 : S.length = 0
    · rw [if_pos h0]
    · rw [if_neg h0, h2]
      simp

/-- C2: over any sequence of subscribe and unsubscribe calls and transport
closes, the subscription set of the client equals the pure registry
semantics of that sequence, in which a close leaves the set untouched, and
the full resync sent after a successful reauthentication carries exactly
that set when it is non-empty and nothing otherwise. -/
theorem c2_resync_set_fidelity (s : ClientState) (L : List RegOp) :
    (runOps s L).subscribedSymbols = L.foldl registryStep s.subscribedSymbols ∧
    onOpenAfterAuth (runOps s L) true =
      (if (L.foldl registryStep s.subscribedSymbols).length > 0
       then [Action.send (ClientMsg.subscribeMsg (L.foldl registryStep s.subscribedSymbols))]
       else []) := by
  have h := runOps_subscribedSymbols L s
  refine ⟨h, ?_⟩
  unfold onOpenAfterAuth
  rw [if_pos rfl, h]

/-! Lemmas for the unsubscribe and connect claims. -/

theorem unsubscribe_fst_prices (s : ClientState) (S : List String) :
    (unsubscribe s S).1.prices = s.prices := by
  simp only [unsubscribe]
  by_cases h0 : S.length = 0
  · rw [if_pos h0]
  · rw [if_neg h0]
    by_cases h1 : (S.filter (fun sym => s.subscribedSymbols.contains sym)).length = 0
    · rw [if_pos h1]
    · rw [if_neg h1]
      split <;> rfl

theorem unsubscribe_snd_offline (s : ClientState) (S : List String)
    (h : ¬(s.ws = some ReadyState.opened ∧ s.isAuthenticated = true)) :
    (unsubscribe s S).2 = [] := by
  simp only [unsubscribe]
  by_cases h0 : S.length = 0
  · rw [if_pos h0]
  · rw [if_neg h0]
    by_cases h1 : (S.filter (fun sym => s.subscribedSymbols.contains sym)).length = 0
    · rw [if_pos h1]
    · rw [if_neg h1, if_neg h]

/-- C10: while the transport is not open or the client is not authenticated,
unsubscribe sends no wire message and leaves the price map untouched, yet
still removes from the subscription set every symbol of the argument that
was present, so every symbol of the argument is absent from the set and from
the full resync message sent after the next successful authentication. -/
theorem c10_unsubscribe_offline (s : ClientState) (S : List String)
    (h : ¬(s.ws = some ReadyState.opened ∧ s.isAuthenticated = true)) :
    (unsubscribe s S).2 = [] ∧
    (unsubscribe s S).1.prices = s.prices ∧
    (unsubscribe s S).1.subscribedSymbols = registryUnsub s.subscribedSymbols S ∧
    (∀ x ∈ S, x ∉ (unsubscribe s S).1.subscribedSymbols) ∧
    (∀ l, onOpenAfterAuth (unsubscribe s S).1 true =
        [Action.send (ClientMsg.subscribeMsg l)] → ∀ x ∈ S, x ∉ l) := by
  have hnot : ∀ x ∈ S, x ∉ (unsubscribe s S).1.subscribedSymbols := by
    intro x hx
    rw [unsubscribe_fst_subscribedSymbols]
    unfold registryUnsub
    by_cases hin : x ∈ s.subscribedSymbols
    · apply not_mem_foldl_removeSymbol_of_mem_list
      exact List.mem_filter.mpr ⟨hx, (contains_iff_mem _ _).mpr hin⟩
    · exact not_mem_foldl_removeSymbol_of_not_mem _ _ _ hin
  refine ⟨unsubscribe_snd_offline s S h, unsubscribe_fst_prices s S,
    unsubscribe_fst_subscribedSymbols s S, hnot, ?_⟩
  intro l heq x hx
  unfold onOpenAfterAuth at heq
  rw [if_pos rfl] at heq
  by_cases hlen : (unsubscribe s S).1.subscribedSymbols.length > 0
  · rw [if_pos hlen] at heq
    have hl : (unsubscribe s S).1.subscribedSymbols = l := by
      injection heq with h1 _
      injection h1 with h2
      injection h2
    rw [← hl]
    exact hnot x hx
  · rw [if_neg hlen] at heq
    cases heq

/-- C10 witness: at a concrete disconnected client, unsubscribing a
subscribed symbol removes it silently and the later resync omits it. -/
theorem c10_unsubscribe_offline_witness :
    (unsubscribe testOfflineClient ["AAPL"]).2 = [] ∧
    (unsubscribe testOfflineClient ["AAPL"]).1.prices = testOfflineClient.prices ∧
    (unsubscribe testOfflineClient ["AAPL"]).1.subscribedSymbols =
      registryUnsub testOfflineClient.subscribedSymbols ["AAPL"] ∧
    (∀ x ∈ ["AAPL"], x ∉ (unsubscribe testOfflineClient ["AAPL"]).1.subscribedSymbols) ∧
    (∀ l, onOpenAfterAuth (unsubscribe testOfflineClient ["AAPL"]).1 true =
        [Action.send (ClientMsg.subscribeMsg l)] → ∀ x ∈ ["AAPL"], x ∉ l) :=
  c10_unsubscribe_offline testOfflineClient ["AAPL"] (by decide)

/-- C3: connect is a no-op, creating no transport and changing no state,
whenever the client is disabled, the URL is empty, the in-progress guard is
set, or a transport exists in the CONNECTING or OPEN state; a second call
immediately after any call is always a no-op, any call creates at most one
transport, and a call on an idle enabled client creates exactly one
transport, left in the CONNECTING state. -/
theorem c3_connect_single_transport (s : ClientState) :
    ((s.enabled = false ∨ s.url = "" ∨ s.connectionInProgress = true ∨ wsLive s.ws = true) →
      connect s = (s, [])) ∧
    (connect (connect s).1).2 = [] ∧
    (connect s).2.count Action.createTransport ≤ 1 ∧
    (s.enabled = true → s.url ≠ "" → s.connectionInProgress = false → wsLive s.ws = false →
      (connect s).1.ws = some ReadyState.connecting ∧
      (connect s).2.count Action.createTransport = 1) := by
  by_cases hA : s.enabled = false ∨ s.url = ""
  · have h1 : connect s = (s, []) := by
      unfold connect
      rw [if_pos hA]
    refine ⟨fun _ => h1, ?_, ?_, ?_⟩
    · rw [h1]
      show (connect s).2 = []
      rw [h1]
    · rw [h1]
      simp
    · intro he hu _ _
      rcases hA with hA | hA
      · rw [he] at hA
        cases hA
      · exact absurd hA hu
  · by_cases hB : s.connectionInProgress = true ∨ wsLive s.ws = true
    · have h1 : connect s = (s, []) := by
        unfold connect
        rw [if_neg hA, if_pos hB]
      refine ⟨fun _ => h1, ?_, ?_, ?_⟩
      · rw [h1]
        show (connect s).2 = []
        rw [h1]
      · rw [h1]
        simp
      · intro _ _ hc hw
        rcases hB with hB | hB
        · rw [hc] at hB
          cases hB
        · rw [hw] at hB
          cases hB
    · have h1 : connect s =
          ({ s with connectionInProgress := true, ws := some ReadyState.connecting },
           (if s.ws.isSome = true then [Action.closeTransport] else []) ++
             [Action.createTransport]) := by
        unfold connect
        rw [if_neg hA, if_neg hB]
      have hcount : (connect s).2.count Action.createTransport = 1 := by
        rw [h1]
        by_cases hws : s.ws.isSome = true
        · rw [if_pos hws]
          show List.count Action.createTransport
            ([Action.closeTransport] ++ [Action.createTransport]) = 1
          decide
        · rw [if_neg hws]
          show List.count Action.createTransport ([] ++ [Action.createTransport]) = 1
          decide
      refine ⟨fun hc => absurd hc ?_, ?_, Nat.le_of_eq hcount, fun _ _ _ _ => ⟨?_, hcount⟩⟩
      · intro hc
        rcases hc with hc | hc | hc | hc
        · exact hA (Or.inl hc)
        · exact hA (Or.inr hc)
        · exact hB (Or.inl hc)
        · exact hB (Or.inr hc)
      · rw [h1]
        unfold connect
        split
        · rfl
        · split
          · rfl
          · rename_i hc2
            exact absurd (Or.inl rfl) hc2
      · simp [h1]

/-- C3 witness: on a concrete idle enabled client, two connect calls in a
row create exactly one transport. -/
theorem c3_connect_single_transport_witness :
    (connect (connect testFreshClient).1).2 = [] ∧
    (connect testFreshClient).1.ws = some ReadyState.connecting ∧
    (connect testFreshClient).2.count Action.createTransport = 1 :=
  ⟨(c3_connect_single_transport testFreshClient).2.1,
   ((c3_connect_single_transport testFreshClient).2.2.2 rfl (by decide) rfl rfl).1,
   ((c3_connect_single_transport testFreshClient).2.2.2 rfl (by decide) rfl rfl).2⟩

/-! Lemmas for the authentication timeout claim. -/

theorem authStep_nonterminal_fst (k : String) (a : AuthMachine) (e : AuthEvent)
    (h : isTerminalAuthEvent e = false) : (authStep k a e).1 = a := by
  cases e with
  | timeoutFires => simp [isTerminalAuthEvent] at h
  | badJson => simp [isTerminalAuthEvent] at h
  | msg m =>
    cases m with
    | authRequired =>
      simp only [authStep]
      split <;> rfl
    | challenge c i =>
      simp only [authStep]
      split <;> rfl
    | authenticated t => simp [isTerminalAuthEvent] at h
    | authError m2 => simp [isTerminalAuthEvent] at h
    | priceUpdate sym p =>
      simp only [authStep]
      split <;> rfl
    | errorMsg m2 =>
      simp only [authStep]
      split <;> rfl

theorem authRun_append_fst (k : String) (l1 l2 : List AuthEvent) (a : AuthMachine) :
    (authRun k a (l1 ++ l2)).1 = (authRun k (authRun k a l1).1 l2).1 := by
  induction l1 generalizing a with
  | nil => rfl
  | cons e rest ih => exact ih (authStep k a e).1

theorem authRun_nonterminal_fst (k : String) (events : List AuthEvent) (a : AuthMachine)
    (h : ∀ e ∈ events, isTerminalAuthEvent e = false) : (authRun k a events).1 = a := by
  induction events generalizing a with
  | nil => rfl
  | cons e rest ih =>
    show (authRun k (authStep k a e).1 rest).1 = a
    rw [authStep_nonterminal_fst k a e (h e (List.mem_cons_self e rest))]
    exact ih a (fun x hx => h x (List.mem_cons_of_mem e hx))

/-- C6: if a pending handshake sees only non-terminal events and then the
10 second timer fires, the handshake resolves to failure, the in-progress
guard is cleared, the timeout error is surfaced, and the connection-open
flow run with that failure closes the transport. -/
theorem c6_auth_timeout (k : String) (a : AuthMachine) (events : List AuthEvent)
    (hres : a.resolved = none) (htim : a.timeoutActive = true)
    (hnt : ∀ e ∈ events, isTerminalAuthEvent e = false) :
    (authRun k a (events ++ [AuthEvent.timeoutFires])).1.resolved = some false ∧
    (authRun k a (events ++ [AuthEvent.timeoutFires])).1.client.authenticationInProgress
      = false ∧
    (authRun k a (events ++ [AuthEvent.timeoutFires])).1.client.error =
      some "Authentication timeout" ∧
    onOpenAfterAuth (authRun k a (events ++ [AuthEvent.timeoutFires])).1.client false =
      [Action.closeTransport] := by
  have hsplit : (authRun k a (events ++ [AuthEvent.timeoutFires])).1 =
      (authStep k a AuthEvent.timeoutFires).1 := by
    rw [authRun_append_fst, authRun_nonterminal_fst k events a hnt]
    rfl
  rw [hsplit]
  simp only [authStep]
  rw [if_pos htim]
  simp [resolveAuth, hres, onOpenAfterAuth]

/-- C6 witness: a concrete pending handshake that only ever saw the
auth-required message fails when the timer fires, and the open flow closes
the transport. -/
theorem c6_auth_timeout_witness :
    (authRun "secret" testAuth
      ([AuthEvent.msg ServerMsg.authRequired] ++ [AuthEvent.timeoutFires])).1.resolved
      = some false ∧
    (authRun "secret" testAuth
      ([AuthEvent.msg ServerMsg.authRequired] ++
        [AuthEvent.timeoutFires])).1.client.authenticationInProgress = false ∧
    (authRun "secret" testAuth
      ([AuthEvent.msg ServerMsg.authRequired] ++ [AuthEvent.timeoutFires])).1.client.error =
      some "Authentication timeout" ∧
    onOpenAfterAuth (authRun "secret" testAuth
      ([AuthEvent.msg ServerMsg.authRequired] ++ [AuthEvent.timeoutFires])).1.client false =
      [Action.closeTransport] :=
  c6_auth_timeout "secret" testAuth [AuthEvent.msg ServerMsg.authRequired] rfl rfl (by decide)

end WSClient
